import Mathlib

/-!
Verification of `hecat/exporters/markdown_multipage.py` (multipage markdown
site exporter).

The Python module is shallowly embedded below: every template constant is
transcribed verbatim (Jinja template semantics are applied by hand, literal
braces are written with `\x7b`/`\x7d` escapes), file reads become explicit
string parameters, file writes become an ordered list of
`(path, contents)` pairs, `datetime.now()` becomes an explicit integer
parameter `now` (microseconds since the Unix epoch), and the abnormal
terminations (`sys.exit(1)` on an invalid item type, the `ValueError`
raised by `datetime.strptime` on a malformed `updated_at`) become values of
an error type.  Helper functions of the repository that live outside the
exporter module (`to_kebab_case`, `render_markdown_licenses`,
`load_yaml_data` from `hecat.utils`) are not part of the verified source
tree: `to_kebab_case` is modelled from the specification, while
`render_markdown_licenses` and the loaded data are taken as parameters.
-/

set_option autoImplicit false

set_option maxRecDepth 16384

deriving instance DecidableEq for Except

/-! ## Generic string helpers -/

/-- Concatenation of a list of strings, in order. -/
def strJoin : List String → String
  | [] => ""
  | s :: rest => s ++ strJoin rest

/-- `pat` occurs (contiguously) inside `s`. -/
def strContains (s pat : String) : Prop := pat.data <:+: s.data

instance strContains.instDecidable (s pat : String) : Decidable (strContains s pat) :=
  inferInstanceAs (Decidable (pat.data <:+: s.data))

/-! ## Slug normalizer and URL quoting -/

/-- Modelled from the spec: one character step of the Slug Normalizer
(`to_kebab_case` from `hecat.utils`, whose source is not in the verified
tree).  The character is lowercased; a space becomes a hyphen; letters,
digits, hyphens and dots are kept; any other character is dropped. -/
def kebabChar (c : Char) : Option Char :=
  let lc := c.toLower
  if lc = ' ' then some '-'
  else if lc.isAlpha || lc.isDigit || lc = '-' || lc = '.' then some lc
  else none

/-- Modelled from the spec: the Slug Normalizer (`to_kebab_case` from
`hecat.utils`): deterministic, pure, produces a lowercase hyphen-separated
token safe for use as a filename and URL path segment.  Matches the sample
outputs in the exporter module docstring (`analytics.html`,
`archiving-and-digital-preservation-dp.html` for the tag named
"Archiving and Digital Preservation (DP)"). -/
def toKebabCase (s : String) : String := ⟨s.data.filterMap kebabChar⟩

/-- Uppercase hexadecimal digit for `n < 16`. -/
def hexDigitChar (n : Nat) : Char :=
  if n < 10 then Char.ofNat (48 + n) else Char.ofNat (55 + n)

/-- `%XX` escape of one byte value. -/
def percentByte (b : Nat) : String :=
  "%" ++ String.singleton (hexDigitChar (b / 16)) ++ String.singleton (hexDigitChar (b % 16))

/-- UTF-8 byte values of the Unicode code point `n`. -/
def utf8Bytes (n : Nat) : List Nat :=
  if n < 0x80 then [n]
  else if n < 0x800 then [0xC0 + n / 0x40, 0x80 + n % 0x40]
  else if n < 0x10000 then [0xE0 + n / 0x1000, 0x80 + (n / 0x40) % 0x40, 0x80 + n % 0x40]
  else [0xF0 + n / 0x40000, 0x80 + (n / 0x1000) % 0x40, 0x80 + (n / 0x40) % 0x40, 0x80 + n % 0x40]

/-- Characters `urllib.parse.quote` leaves unescaped with its default
`safe` value: ASCII alphanumerics, `_`, `.`, `~`, `-` and `/`. -/
def quoteSafeChar (c : Char) : Bool :=
  c.isAlphanum || c = '_' || c = '.' || c = '~' || c = '-' || c = '/'

/-- `urllib.parse.quote` with default arguments: percent-encode the UTF-8
bytes of every character outside the safe set. -/
def pyQuote (s : String) : String :=
  strJoin (s.data.map (fun c =>
    if quoteSafeChar c then String.singleton c else strJoin ((utf8Bytes c.toNat).map percentByte)))

/-! ## Dates (`datetime.strptime(_, "%Y-%m-%d")` and comparison with `now`)

Times are integers counting microseconds from the Unix epoch (the unit of
resolution of Python `datetime`); a parsed `updated_at` date sits at
midnight of its day. -/

/-- Number of digits-only characters folded into a number; `none` when the
list is empty or contains a non-digit. -/
def parseDigits (cs : List Char) : Option Nat :=
  if cs = [] then none
  else if cs.all (·.isDigit) then
    some (cs.foldl (fun acc c => acc * 10 + (c.toNat - 48)) 0)
  else none

/-- Split a character list on `-` separators (keeping empty groups). -/
def splitOnDash : List Char → List (List Char)
  | [] => [[]]
  | c :: rest =>
    let r := splitOnDash rest
    if c = '-' then [] :: r
    else
      match r with
      | [] => [[c]]
      | g :: gs => (c :: g) :: gs

/-- Gregorian leap year. -/
def isLeapYear (y : Nat) : Bool :=
  y % 4 = 0 && (y % 100 ≠ 0 || y % 400 = 0)

/-- Days in a month of the proleptic Gregorian calendar. -/
def daysInMonth (y m : Nat) : Nat :=
  if m = 2 then (if isLeapYear y then 29 else 28)
  else if m = 4 || m = 6 || m = 9 || m = 11 then 30
  else 31

/-- Days from 1970-01-01 to the civil date `y-m-d` (valid for `y ≥ 1`). -/
def daysFromCivil (y m d : Nat) : Int :=
  let yAdj := if m ≤ 2 then y - 1 else y
  let era := yAdj / 400
  let yoe := yAdj % 400
  let mp := if m > 2 then m - 3 else m + 9
  let doy := (153 * mp + 2) / 5 + d - 1
  let doe := yoe * 365 + yoe / 4 - yoe / 100 + doy
  ((era * 146097 + doe : Nat) : Int) - 719468

/-- Microseconds in one day. -/
def usPerDay : Int := 86400000000

/-- `datetime.strptime(s, "%Y-%m-%d")` as microseconds since the epoch
(midnight of the parsed day); `none` models the `ValueError` raised on a
string that does not match the format or is not a valid date. -/
def strptimeYmd (s : String) : Option Int :=
  match splitOnDash s.data with
  | [ys, ms, ds] =>
    match parseDigits ys, parseDigits ms, parseDigits ds with
    | some y, some m, some d =>
      if ys.length ≤ 4 && ms.length ≤ 2 && ds.length ≤ 2
          && 1 ≤ y && y ≤ 9999 && 1 ≤ m && m ≤ 12 && 1 ≤ d && d ≤ daysInMonth y m
      then some (daysFromCivil y m d * usPerDay)
      else none
    | _, _, _ => none
  | _ => none

/-! ## Data model (from the YAML records described in the module and in
`markdown_singlepage.py`) -/

/-- A `{title, url}` link object (used by `external_links` / `redirect`). -/
structure Link where
  title : String
  url : String
deriving DecidableEq

/-- A software project record.  `name`, `description`, `website_url`,
`licenses` and `tags` are always present; the other fields are optional. -/
structure Software where
  name : String
  description : String
  website_url : String
  source_code_url : Option String := none
  related_software_url : Option String := none
  demo_url : Option String := none
  licenses : List String
  tags : List String
  platforms : Option (List String) := none
  depends_3rdparty : Option Bool := none
  updated_at : Option String := none
deriving DecidableEq

/-- A tag (category) or platform object. -/
structure Item where
  name : String
  description : String
  related_tags : Option (List String) := none
  external_links : Option (List Link) := none
  redirect : Option (List Link) := none
deriving DecidableEq

/-- The step configuration (`step['module_options']`). -/
structure Step where
  source_directory : String
  output_directory : String
  exclude_licenses : Option (List String) := none
  output_file : Option String := none
deriving DecidableEq

/-- Abnormal terminations of the exporter. -/
inductive RunError where
  /-- `sys.exit(1)` from `render_item_page` on an item type other than
  `tag` or `platform`. -/
  | invalidItemType
  /-- `ValueError` from `datetime.strptime` on a malformed `updated_at`. -/
  | dateParseError
  /-- `KeyError` on `step['module_options']['exclude_licenses']` when
  `render_item_page` is invoked before defaults are applied. -/
  | keyError
deriving DecidableEq

/-! ## Template constants (transcribed from the module) -/

/-- `MARKDOWN_CSS` (lines 83-173 of the module). -/
def MARKDOWN_CSS : String := "\n    .tag \x7b\n        background-color: #DBEAFE;\n        border-radius: 5px;\n        padding: 2px 8px 0px 8px;\n        color: #1E40AF;\n        font-weight: bold;\n        display: inline-block;\n    \x7d\n    .tag a \x7b\n        text-decoration: none\n    \x7d\n    .platform \x7b\n        background-color: #B0E6A3;\n        border-radius: 5px;\n        padding: 2px 8px 0px 8px;\n        color: #2B4026;\n        font-weight: bold;\n        display: inline-block;\n    \x7d\n    .platform a \x7b\n        text-decoration: none;\n        color: #2B4026;\n    \x7d\n    .license-box \x7b\n        background-color: #A7C7F9;\n        border-radius: 5px;\n        padding: 2px 8px 0px 8px;\n        display: inline-block;\n    \x7d\n    .license-link \x7b\n        color: #173B80;\n        font-weight: bold;\n        text-decoration: none\n    \x7d\n    .stars \x7b\n        background-color: #FFFCAB;\n        border-radius: 5px;\n        padding: 2px 8px 0px 8px;\n        color: #856000;\n        font-weight: bold;\n        display: inline-block;\n    \x7d\n    .updated-at \x7b\n        background-color: #EFEFEF;\n        border-radius: 5px;\n        padding: 2px 8px 0px 8px;\n        color: #444444;\n        display: inline-block;\n        font-weight: bold\n    \x7d\n    .orangebox \x7b\n        background-color: #FD9D49;\n        border-radius: 5px;\n        padding: 2px 8px 0px 8px;\n        color: #FFFFFF;\n        display: inline-block;\n        font-weight: bold\n    \x7d\n    .redbox \x7b\n        background-color: #FD4949;\n        border-radius: 5px;\n        padding: 2px 8px 0px 8px;\n        color: #FFFFFF;\n        display: inline-block;\n        font-weight: bold\n    \x7d\n    .external-link-box \x7b\n        background-color: #1E40AF;\n        border-radius: 5px;\n        padding: 2px 8px 0px 8px;\n        display: inline-block;\n    \x7d\n    .external-link \x7b\n        color: #DBEAFE;\n        font-weight: bold;\n        text-decoration: none\n    \x7d\n    .external-link a:hover \x7b\n        color: #FFF;\n    \x7d\n    .sd-octicon \x7b\n        vertical-align: inherit\n    \x7d\n    hr.docutils \x7b\n        margin: 1rem 0;\n    \x7d\n    .sidebar-brand-text \x7b\n        font-size: 1.4rem;\n    \x7d\n"

/-- `MARKDOWN_INDEX_CONTENT_HEADER` (lines 175-181). -/
def MARKDOWN_INDEX_CONTENT_HEADER : String := "\n--------------------\n\n## Entries\n\nThis page lists all entries. Use links in the sidebar or click on \x7bocticon\x7d`tag;0.8em;octicon` tags to browse projects by category.\n"

/-- `MARKDOWN_TAGPAGE_CONTENT_HEADER` (lines 227-234). -/
def MARKDOWN_TAGPAGE_CONTENT_HEADER : String := "\n--------------------\n\n## Software\n\nThis page lists all projects in this category. Use the [index of all projects](../index.md), the sidebar, or click on \x7bocticon\x7d`tag;0.8em;octicon` tags to browse other categories.\n\n"

/-- `MARKDOWN_PLATFORMPAGE_CONTENT_HEADER` (lines 245-252). -/
def MARKDOWN_PLATFORMPAGE_CONTENT_HEADER : String := "\n--------------------\n\n## Software\n\nThis page lists all projects using this programming language or deployment platform. Only the main server-side requirements, packaging or distribution formats are considered.\n\n"

/-! ## Jinja template rendering

Each `Template(...).render(...)` call is embedded as a string function.
Jinja is used with default options, so `{% raw %}{octicon}{% endraw %}`
renders as a literal `{octicon}`, block tags emit nothing themselves,
`-%}` strips the whitespace that follows a tag, and the single trailing
newline of the template source is dropped (`keep_trailing_newline` is
false). -/

/-- `SOFTWARE_JINJA_MARKDOWN` (lines 183-204) rendered with the given
variables.  `tags` and `platforms` are the `(name, href)` dictionaries
built by `render_markdown_software`; `dateCssCls` is the `date_css_class`
template variable, which the template text never references. -/
def softwareTemplateRender (software : Software) (tags platforms : List (String × String)) (dateCssCls licensesRelativeUrl : String) : String :=
  "\n--------------------\n\n### " ++ software.name ++ "\n\n" ++ software.description ++ "\n\n"
  ++ "<span class=\"external-link-box\"><a class=\"external-link\" href=\"" ++ software.website_url
  ++ "\" target=\"_blank\">\x7bocticon\x7d`globe;0.8em;octicon` Website</a></span>\n"
  ++ (match software.source_code_url with
      | some u => "<span class=\"external-link-box\"><a class=\"external-link\" href=\"" ++ u ++ "\" target=\"_blank\">\x7bocticon\x7d`git-branch;0.8em;octicon` Source Code</a></span>"
      | none => "")
  ++ "\n"
  ++ (match software.related_software_url with
      | some u => "<span class=\"external-link-box\"><a class=\"external-link\" href=\"" ++ u ++ "\" target=\"_blank\">\x7bocticon\x7d`package;0.8em;octicon` Clients</a></span>\n"
      | none => "")
  ++ (match software.demo_url with
      | some u => "<span class=\"external-link-box\"><a class=\"external-link\" href=\"" ++ u ++ "\" target=\"_blank\">\x7bocticon\x7d`play;0.8em;octicon` Demo</a></span>\n"
      | none => "")
  ++ "\n\n"
  ++ strJoin (platforms.map (fun p => "<span class=\"platform\"><a href=\"" ++ p.2 ++ "\">\x7bocticon\x7d`package;0.8em;octicon` " ++ p.1 ++ "</a> </span> "))
  ++ "\n"
  ++ strJoin (software.licenses.map (fun l => "<span class=\"license-box\"><a class=\"license-link\" href=\"" ++ licensesRelativeUrl ++ "\">\x7bocticon\x7d`law;0.8em;octicon` " ++ l ++ "</a> </span> "))
  ++ "\n"
  ++ (match software.depends_3rdparty with
      | some true => "<span class=\"orangebox\" title=\"Depends on a proprietary service outside the user\x27s control\">⚠ Anti-features</span>"
      | _ => "")
  ++ "\n\n"
  ++ strJoin (tags.map (fun t => "<span class=\"tag\"><a href=\"" ++ t.2 ++ "\">\x7bocticon\x7d`tag;0.8em;octicon` " ++ t.1 ++ "</a> </span>\n"))
  ++ "\n"

/-- The `[title](url)` links of a redirect list joined with `", "`
(the `{% if not loop.last %}{{', '}}{% endif %}` idiom). -/
def redirectLinks : List Link → String
  | [] => ""
  | [r] => "[" ++ r.title ++ "](" ++ r.url ++ ")"
  | r :: rest => "[" ++ r.title ++ "](" ++ r.url ++ ")" ++ ", " ++ redirectLinks rest

/-- `TAG_HEADER_JINJA_MARKDOWN` (lines 206-225) rendered for a tag item
(with `to_kebab_case` available as a template global). -/
def tagHeaderRender (item : Item) : String :=
  "\n\n# " ++ item.name ++ "\n\n" ++ item.description ++ "\n\n"
  ++ (match item.related_tags with
      | some rts => "```\x7badmonition\x7d Related tags\n"
          ++ strJoin (rts.map (fun rt => "- [" ++ rt ++ "](" ++ toKebabCase rt ++ ".md)\n"))
          ++ "\n```\n"
      | none => "")
  ++ "\n"
  ++ (match item.external_links with
      | some links => "```\x7bseealso\x7d\n"
          ++ strJoin (links.map (fun l => "- [" ++ l.title ++ "](" ++ l.url ++ ")\n"))
          ++ "\n```"
      | none => "")
  ++ "\n"
  ++ (match item.redirect with
      | some rs => "```\x7bimportant\x7d\n**Please visit " ++ redirectLinks rs ++ " instead**\n```"
      | none => "")
  ++ "\n"

/-- `PLATFORM_HEADER_JINJA_MARKDOWN` (lines 237-243) rendered for a
platform item. -/
def platformHeaderRender (item : Item) : String :=
  "\n\n# " ++ item.name ++ "\n\n" ++ item.description ++ "\n"

/-! ## The exporter functions -/

/-- The `date_css_class` computation (lines 263-269): start from
`updated-at`, escalate to `redbox` when the parsed date is strictly before
`now` minus 365 days, else to `orangebox` when strictly before `now` minus
186 days.  `none` models the `ValueError` escaping from `strptime`. -/
def dateCssClass (updatedAt : Option String) (now : Int) : Option String :=
  match updatedAt with
  | none => some "updated-at"
  | some s =>
    match strptimeYmd s with
    | none => none
    | some t =>
      some (if t < now - 365 * usPerDay then "redbox"
            else if t < now - 186 * usPerDay then "orangebox"
            else "updated-at")

/-- `render_markdown_software` (lines 254-276): build the tag and platform
`(name, href)` dictionaries, compute `date_css_class`, and render the
software template. -/
def renderMarkdownSoftware (software : Software) (tagsRelativeUrl platformsRelativeUrl licensesRelativeUrl : String) (now : Int) : Except RunError String :=
  let tagsDictsList := software.tags.map
    (fun tag => (tag, tagsRelativeUrl ++ pyQuote (toKebabCase tag) ++ ".html"))
  let platformsDictsList :=
    match software.platforms with
    | some ps => ps.map (fun p => (p, platformsRelativeUrl ++ pyQuote (toKebabCase p) ++ ".html"))
    | none => []
  match dateCssClass software.updated_at now with
  | none => .error .dateParseError
  | some cls => .ok (softwareTemplateRender software tagsDictsList platformsDictsList cls licensesRelativeUrl)

/-- The exclusion test of lines 310 and 359:
`any(license in software['licenses'] for license in exclude_licenses)`. -/
def isExcluded (excludeLicenses : List String) (software : Software) : Bool :=
  excludeLicenses.any (fun license => software.licenses.contains license)

/-- `software[match_key]` for the two possible `match_key` values;
`tags` is a required field while `platforms` may be absent. -/
def fieldList (software : Software) (key : String) : Option (List String) :=
  if key = "tags" then some software.tags
  else if key = "platforms" then software.platforms
  else none

/-- The membership test of line 312:
`match_key in software and any(value == item['name'] for value in software[match_key])`. -/
def matchesItem (software : Software) (matchKey itemName : String) : Bool :=
  match fieldList software matchKey with
  | some values => values.any (fun value => value == itemName)
  | none => false

/-- The accumulation loop of lines 308-316 (`markdown_software_list` of
`render_item_page`), starting from accumulator `acc`. -/
def itemSoftwareListAux (excl : List String) (matchKey itemName tagsRelativeUrl platformsRelativeUrl : String) (now : Int) (acc : String) : List Software → Except RunError String
  | [] => .ok acc
  | software :: rest =>
    if isExcluded excl software then
      itemSoftwareListAux excl matchKey itemName tagsRelativeUrl platformsRelativeUrl now acc rest
    else if matchesItem software matchKey itemName then
      match renderMarkdownSoftware software tagsRelativeUrl platformsRelativeUrl "../index.html#list-of-licenses" now with
      | .error e => .error e
      | .ok frag => itemSoftwareListAux excl matchKey itemName tagsRelativeUrl platformsRelativeUrl now (acc ++ frag) rest
    else
      itemSoftwareListAux excl matchKey itemName tagsRelativeUrl platformsRelativeUrl now acc rest

/-- The `markdown_software_list` loop of lines 308-316 as entered with the
raw `step` configuration: `step['module_options']['exclude_licenses']` is
looked up at the first iteration, so a missing key (defaults not yet
applied) raises `KeyError` only when the software list is non-empty. -/
def itemSoftwareListLoop (exclOpt : Option (List String)) (matchKey itemName tagsRelativeUrl platformsRelativeUrl : String) (now : Int) (acc : String) (l : List Software) : Except RunError String :=
  match l with
  | [] => .ok acc
  | _ :: _ =>
    match exclOpt with
    | none => .error .keyError
    | some excl => itemSoftwareListAux excl matchKey itemName tagsRelativeUrl platformsRelativeUrl now acc l

/-- `render_item_page` (lines 278-324), common tail after the `item_type`
dispatch has selected the fieldlist, header template, content header,
match key, relative urls and output directory.  Returns the single
`(path, contents)` write performed (the file is opened with mode `w+`, so
an existing file at the path is overwritten). -/
def renderItemPageWith (exclOpt : Option (List String)) (markdownFieldlist : String) (headerRender : Item → String) (contentHeader matchKey tagsRelativeUrl platformsRelativeUrl outputDir : String) (item : Item) (softwareList : List Software) (now : Int) : Except RunError (String × String) :=
  let markdownPageHeader := headerRender item
  match itemSoftwareListLoop exclOpt matchKey item.name tagsRelativeUrl platformsRelativeUrl now "" softwareList with
  | .error e => .error e
  | .ok markdownSoftwareList =>
    let markdownPage :=
      if markdownSoftwareList ≠ "" then
        markdownFieldlist ++ markdownPageHeader ++ contentHeader ++ markdownSoftwareList
      else
        markdownPageHeader
    .ok (outputDir ++ toKebabCase (item.name ++ ".md"), markdownPage)

/-- `render_item_page` (lines 278-324): dispatch on `item_type` happens
first (lines 286-305); any value other than `tag` or `platform` is
`sys.exit(1)` (no file written). -/
def renderItemPage (step : Step) (itemType : String) (item : Item) (softwareList : List Software) (now : Int) : Except RunError (String × String) :=
  if itemType = "tag" then
    renderItemPageWith step.exclude_licenses "" tagHeaderRender MARKDOWN_TAGPAGE_CONTENT_HEADER "tags" "./" "../platforms/" (step.output_directory ++ "/md/tags/") item softwareList now
  else if itemType = "platform" then
    renderItemPageWith step.exclude_licenses ":orphan:\n:nosearch:\n" platformHeaderRender MARKDOWN_PLATFORMPAGE_CONTENT_HEADER "platforms" "../tags/" "./" (step.output_directory ++ "/md/platforms/") item softwareList now
  else
    .error .invalidItemType

/-- `render_markdown_toctree` (lines 326-334). -/
def renderMarkdownToctree (tags : List Item) : String :=
  let tagsFilesList := tags.foldl
    (fun acc tag => acc ++ "\n" ++ ("tags/" ++ toKebabCase (tag.name ++ ".md"))) ""
  "\n```\x7btoctree\x7d\n:maxdepth: 1\n:hidden:\n" ++ tagsFilesList ++ "\n```\n\n"

/-- The accumulation loop of lines 357-362 (`markdown_software_list` of
`render_markdown_multipage`), which calls `render_markdown_software` with
its default relative urls. -/
def indexSoftwareListAux (excl : List String) (now : Int) (acc : String) : List Software → Except RunError String
  | [] => .ok acc
  | software :: rest =>
    if isExcluded excl software then
      indexSoftwareListAux excl now acc rest
    else
      match renderMarkdownSoftware software "tags/" "platforms/" "#list-of-licenses" now with
      | .error e => .error e
      | .ok frag => indexSoftwareListAux excl now (acc ++ frag) rest

/-- The loops of lines 381-385: render one item page per item, stopping at
the first abnormal termination; returns the writes performed in order and
the error, if any. -/
def renderItemPages (step : Step) (itemType : String) (items : List Item) (softwareList : List Software) (now : Int) : List (String × String) × Option RunError :=
  match items with
  | [] => ([], none)
  | item :: rest =>
    match renderItemPage step itemType item softwareList now with
    | .error e => ([], some e)
    | .ok w =>
      match renderItemPages step itemType rest softwareList now with
      | (ws, e) => (w :: ws, e)

/-- `render_markdown_multipage` (lines 336-393) as a pure function of its
loaded inputs: `tags`, `platforms` and `softwareList` are the records
loaded by `load_yaml_data` (tags and platforms sorted by name by the
loader), `licenses` is the loaded license list, `renderLicensesExt` is the
external `render_markdown_licenses` from `hecat.utils`,
`markdownHeader`/`markdownFooter` are the contents of the header/footer
files.  Returns the file writes performed, in program order (each opened
with mode `w+`, overwriting), and the abnormal termination if one
occurred. -/
def renderMarkdownMultipage {L : Type} (step : Step) (tags platforms : List Item) (softwareList : List Software) (licenses : L) (renderLicensesExt : Step → L → String) (markdownHeader markdownFooter : String) (now : Int) : List (String × String) × Option RunError :=
  let excl := step.exclude_licenses.getD []
  let outputFile := step.output_file.getD "index.md"
  let step' : Step := { step with exclude_licenses := some excl, output_file := some outputFile }
  let markdownToctree := renderMarkdownToctree tags
  match indexSoftwareListAux excl now "" softwareList with
  | .error e => ([], some e)
  | .ok markdownSoftwareList =>
    let markdownLicenses := renderLicensesExt step' licenses
    let markdown := ":tocdepth: 2\n" ++ markdownHeader ++ MARKDOWN_INDEX_CONTENT_HEADER
      ++ markdownToctree ++ markdownSoftwareList ++ markdownLicenses ++ markdownFooter
    let indexWrite := (step.output_directory ++ "/md/" ++ outputFile, markdown)
    match renderItemPages step' "tag" tags softwareList now with
    | (ws, some e) => (indexWrite :: ws, some e)
    | (ws, none) =>
      match renderItemPages step' "platform" platforms softwareList now with
      | (ws2, some e) => (indexWrite :: (ws ++ ws2), some e)
      | (ws2, none) =>
        (indexWrite :: (ws ++ ws2)
          ++ [(step.source_directory ++ "/html/_static/custom.css", MARKDOWN_CSS)], none)

/-- All `updated_at` dates of a record parse (so `strptime` cannot raise). -/
def datesOk (software : Software) : Bool :=
  software.updated_at.all (fun s => (strptimeYmd s).isSome)

/-- The text fragment `render_markdown_software` produces on a record whose
date parses: the rendered software template over the tag and platform
href dictionaries.  The `date_css_class` value does not influence the
fragment (the template never references it), so it is fixed here. -/
def softwareFragment (software : Software) (tagsRelativeUrl platformsRelativeUrl licensesRelativeUrl : String) : String :=
  softwareTemplateRender software
    (software.tags.map (fun tag => (tag, tagsRelativeUrl ++ pyQuote (toKebabCase tag) ++ ".html")))
    (match software.platforms with
     | some ps => ps.map (fun p => (p, platformsRelativeUrl ++ pyQuote (toKebabCase p) ++ ".html"))
     | none => [])
    "updated-at" licensesRelativeUrl

/-- Projects surviving the filters of a tag page: not license-excluded and
referencing the tag by exact name. -/
def tagPageIncluded (excl : List String) (itemName : String) (softwareList : List Software) : List Software :=
  softwareList.filter (fun sw => !isExcluded excl sw && matchesItem sw "tags" itemName)

/-- Projects surviving the filters of a platform page. -/
def platformPageIncluded (excl : List String) (itemName : String) (softwareList : List Software) : List Software :=
  softwareList.filter (fun sw => !isExcluded excl sw && matchesItem sw "platforms" itemName)

/-- Projects surviving the license filter of the index page. -/
def indexIncluded (excl : List String) (softwareList : List Software) : List Software :=
  softwareList.filter (fun sw => !isExcluded excl sw)

/-- The contents `render_item_page` writes for a tag page. -/
def tagPageContents (excl : List String) (item : Item) (softwareList : List Software) : String :=
  let frags := strJoin ((tagPageIncluded excl item.name softwareList).map
    (fun sw => softwareFragment sw "./" "../platforms/" "../index.html#list-of-licenses"))
  if frags ≠ "" then tagHeaderRender item ++ MARKDOWN_TAGPAGE_CONTENT_HEADER ++ frags
  else tagHeaderRender item

/-- The contents `render_item_page` writes for a platform page. -/
def platformPageContents (excl : List String) (item : Item) (softwareList : List Software) : String :=
  let frags := strJoin ((platformPageIncluded excl item.name softwareList).map
    (fun sw => softwareFragment sw "../tags/" "./" "../index.html#list-of-licenses"))
  if frags ≠ "" then ":orphan:\n:nosearch:\n" ++ platformHeaderRender item ++ MARKDOWN_PLATFORMPAGE_CONTENT_HEADER ++ frags
  else platformHeaderRender item

/-! ## Concrete records used in counterexamples and witnesses -/

/-- A project record with an `updated_at` date far in the past. -/
def swFoo : Software := { name := "Foo", description := "A wiki.", website_url := "https://foo.example", licenses := ["MIT"], tags := ["Wikis"], updated_at := some "2020-01-01" }

/-- A project record with a platform. -/
def swBar : Software := { name := "Bar", description := "A tool.", website_url := "https://bar.example", licenses := ["MIT"], tags := ["Wikis"], platforms := some ["Python"] }

/-- A project record with two licenses, one of them proprietary. -/
def swBaz : Software := { name := "Baz", description := "A service.", website_url := "https://baz.example", licenses := ["MIT", "Proprietary"], tags := ["Wikis"] }

/-- A tag object. -/
def itemWikis : Item := { name := "Wikis", description := "Wiki software." }

/-- A tag object with related tags. -/
def itemGames : Item := { name := "Games", description := "Games.", related_tags := some ["Wikis"] }

/-- A platform object. -/
def itemPython : Item := { name := "Python", description := "Python language." }

/-- A step configuration with defaults already applied. -/
def stepEx : Step := { source_directory := "data", output_directory := "out", exclude_licenses := some [] }

/-! ## Helper lemmas -/

theorem strJoin_cons (s : String) (l : List String) : strJoin (s :: l) = s ++ strJoin l := rfl

theorem strContains_middle (a s b : String) : strContains (a ++ s ++ b) s :=
  ⟨a.data, b.data, by simp [String.data_append]⟩

theorem strContains_appendL {s pat : String} (t : String) (h : strContains s pat) : strContains (t ++ s) pat := by
  obtain ⟨u, v, huv⟩ := h
  exact ⟨t.data ++ u, v, by simp only [String.data_append, ← huv, List.append_assoc]⟩

theorem strContains_appendR {s pat : String} (t : String) (h : strContains s pat) : strContains (s ++ t) pat := by
  obtain ⟨u, v, huv⟩ := h
  exact ⟨u, v ++ t.data, by simp only [String.data_append, ← huv, List.append_assoc]⟩

theorem strContains_strJoin {pat a : String} {l : List String} (ha : a ∈ l) (h : strContains a pat) : strContains (strJoin l) pat := by
  induction l with
  | nil => cases ha
  | cons b rest ih =>
    rw [strJoin_cons]
    rcases List.mem_cons.mp ha with rfl | hmem
    · exact strContains_appendR _ h
    · exact strContains_appendL _ (ih hmem)

theorem renderMarkdownSoftware_ok (software : Software) (tU pU lU : String) (now : Int) (h : datesOk software = true) :
    renderMarkdownSoftware software tU pU lU now = .ok (softwareFragment software tU pU lU) := by
  unfold renderMarkdownSoftware dateCssClass softwareFragment
  cases hu : software.updated_at with
  | none => rfl
  | some s =>
    unfold datesOk at h
    rw [hu, Option.all_some] at h
    cases hp : strptimeYmd s with
    | none => rw [hp] at h; simp at h
    | some t => simp only [hp]; rfl

theorem renderMarkdownSoftware_now (software : Software) (tU pU lU : String) (now₁ now₂ : Int) :
    renderMarkdownSoftware software tU pU lU now₁ = renderMarkdownSoftware software tU pU lU now₂ := by
  unfold renderMarkdownSoftware dateCssClass
  cases software.updated_at with
  | none => rfl
  | some s =>
    cases hp : strptimeYmd s with
    | none => simp only [hp]
    | some t => simp only [hp]; rfl

theorem itemSoftwareListAux_ok (excl : List String) (matchKey itemName tU pU : String) (now : Int) (l : List Software) :
    ∀ acc : String, (∀ sw ∈ l, datesOk sw = true) →
      itemSoftwareListAux excl matchKey itemName tU pU now acc l
        = .ok (acc ++ strJoin ((l.filter (fun sw => !isExcluded excl sw && matchesItem sw matchKey itemName)).map
            (fun sw => softwareFragment sw tU pU "../index.html#list-of-licenses"))) := by
  induction l with
  | nil => intro acc _; simp [itemSoftwareListAux, strJoin]
  | cons sw rest ih =>
    intro acc h
    have hsw : datesOk sw = true := h sw (List.mem_cons_self sw rest)
    have hrest : ∀ s ∈ rest, datesOk s = true := fun s hs => h s (List.mem_cons_of_mem _ hs)
    unfold itemSoftwareListAux
    by_cases hex : isExcluded excl sw = true
    · rw [if_pos hex, ih acc hrest]
      simp [List.filter_cons, hex]
    · rw [if_neg hex]
      by_cases hm : matchesItem sw matchKey itemName = true
      · rw [if_pos hm, renderMarkdownSoftware_ok sw tU pU _ now hsw]
        show itemSoftwareListAux excl matchKey itemName tU pU now
          (acc ++ softwareFragment sw tU pU "../index.html#list-of-licenses") rest = _
        rw [ih _ hrest]
        simp [List.filter_cons, hex, hm, strJoin_cons, String.append_assoc]
      · rw [if_neg hm, ih acc hrest]
        simp [List.filter_cons, hex, hm]

theorem indexSoftwareListAux_ok (excl : List String) (now : Int) (l : List Software) :
    ∀ acc : String, (∀ sw ∈ l, datesOk sw = true) →
      indexSoftwareListAux excl now acc l
        = .ok (acc ++ strJoin ((indexIncluded excl l).map
            (fun sw => softwareFragment sw "tags/" "platforms/" "#list-of-licenses"))) := by
  induction l with
  | nil => intro acc _; simp [indexSoftwareListAux, indexIncluded, strJoin]
  | cons sw rest ih =>
    intro acc h
    have hsw : datesOk sw = true := h sw (List.mem_cons_self sw rest)
    have hrest : ∀ s ∈ rest, datesOk s = true := fun s hs => h s (List.mem_cons_of_mem _ hs)
    unfold indexSoftwareListAux
    by_cases hex : isExcluded excl sw = true
    · rw [if_pos hex, ih acc hrest]
      simp [indexIncluded, List.filter_cons, hex]
    · rw [if_neg hex, renderMarkdownSoftware_ok sw _ _ _ now hsw]
      show indexSoftwareListAux excl now
        (acc ++ softwareFragment sw "tags/" "platforms/" "#list-of-licenses") rest = _
      rw [ih _ hrest]
      simp [indexIncluded, List.filter_cons, hex, strJoin_cons, String.append_assoc]

theorem itemSoftwareListLoop_some (excl : List String) (matchKey itemName tU pU : String) (now : Int) (acc : String) (l : List Software) :
    itemSoftwareListLoop (some excl) matchKey itemName tU pU now acc l
      = itemSoftwareListAux excl matchKey itemName tU pU now acc l := by
  cases l with
  | nil => simp [itemSoftwareListLoop, itemSoftwareListAux]
  | cons a rest => rfl

theorem renderItemPage_tag_eq (step : Step) (excl : List String) (item : Item) (softwareList : List Software) (now : Int)
    (hexcl : step.exclude_licenses = some excl) (h : ∀ sw ∈ softwareList, datesOk sw = true) :
    renderItemPage step "tag" item softwareList now
      = .ok (step.output_directory ++ "/md/tags/" ++ toKebabCase (item.name ++ ".md"),
             tagPageContents excl item softwareList) := by
  unfold renderItemPage
  show renderItemPageWith step.exclude_licenses "" tagHeaderRender MARKDOWN_TAGPAGE_CONTENT_HEADER "tags" "./" "../platforms/" (step.output_directory ++ "/md/tags/") item softwareList now = _
  unfold renderItemPageWith
  rw [hexcl, itemSoftwareListLoop_some excl "tags" item.name "./" "../platforms/" now "" softwareList,
    itemSoftwareListAux_ok excl "tags" item.name "./" "../platforms/" now softwareList "" h]
  show Except.ok (step.output_directory ++ "/md/tags/" ++ toKebabCase (item.name ++ ".md"), _) = _
  unfold tagPageContents tagPageIncluded
  rw [String.empty_append]
  by_cases hne : strJoin ((softwareList.filter (fun sw => !isExcluded excl sw && matchesItem sw "tags" item.name)).map (fun sw => softwareFragment sw "./" "../platforms/" "../index.html#list-of-licenses")) = ""
  · rw [if_neg (by simp [hne]), if_neg (by simp [hne])]
  · rw [if_pos hne, if_pos hne, String.empty_append]

theorem renderItemPage_platform_eq (step : Step) (excl : List String) (item : Item) (softwareList : List Software) (now : Int)
    (hexcl : step.exclude_licenses = some excl) (h : ∀ sw ∈ softwareList, datesOk sw = true) :
    renderItemPage step "platform" item softwareList now
      = .ok (step.output_directory ++ "/md/platforms/" ++ toKebabCase (item.name ++ ".md"),
             platformPageContents excl item softwareList) := by
  unfold renderItemPage
  show renderItemPageWith step.exclude_licenses ":orphan:\n:nosearch:\n" platformHeaderRender MARKDOWN_PLATFORMPAGE_CONTENT_HEADER "platforms" "../tags/" "./" (step.output_directory ++ "/md/platforms/") item softwareList now = _
  unfold renderItemPageWith
  rw [hexcl, itemSoftwareListLoop_some excl "platforms" item.name "../tags/" "./" now "" softwareList,
    itemSoftwareListAux_ok excl "platforms" item.name "../tags/" "./" now softwareList "" h]
  show Except.ok (step.output_directory ++ "/md/platforms/" ++ toKebabCase (item.name ++ ".md"), _) = _
  unfold platformPageContents platformPageIncluded
  rw [String.empty_append]

theorem softwareFragment_length_pos (sw : Software) (tU pU lU : String) :
    0 < (softwareFragment sw tU pU lU).length := by
  unfold softwareFragment softwareTemplateRender
  have h1 : ("\n--------------------\n\n### ").length = 27 := rfl
  simp only [String.length_append]
  omega

theorem strJoin_fragments_eq_empty_iff (l : List Software) (tU pU lU : String) :
    strJoin (l.map (fun sw => softwareFragment sw tU pU lU)) = "" ↔ l = [] := by
  cases l with
  | nil => simp [strJoin]
  | cons sw rest =>
    simp only [List.map_cons, strJoin_cons]
    constructor
    · intro heq
      exfalso
      have hlen := congrArg String.length heq
      rw [String.length_append] at hlen
      have hp := softwareFragment_length_pos sw tU pU lU
      simp at hlen
      omega
    · intro heq; exact absurd heq (List.cons_ne_nil _ _)

theorem toKebabCase_append (s t : String) : toKebabCase (s ++ t) = toKebabCase s ++ toKebabCase t := by
  unfold toKebabCase
  apply String.ext
  simp [String.data_append, List.filterMap_append]

theorem toKebabCase_md (s : String) : toKebabCase (s ++ ".md") = toKebabCase s ++ ".md" := by
  rw [toKebabCase_append]
  rfl

theorem foldl_toctree_eq (l : List Item) :
    ∀ acc : String, l.foldl (fun acc tag => acc ++ "\n" ++ ("tags/" ++ toKebabCase (tag.name ++ ".md"))) acc
      = acc ++ strJoin (l.map (fun tag => "\n" ++ ("tags/" ++ toKebabCase (tag.name ++ ".md")))) := by
  induction l with
  | nil => intro acc; simp [strJoin]
  | cons tag rest ih =>
    intro acc
    rw [List.foldl_cons, ih, List.map_cons, strJoin_cons]
    simp [String.append_assoc]

theorem renderMarkdownToctree_eq (tags : List Item) :
    renderMarkdownToctree tags
      = "\n```\x7btoctree\x7d\n:maxdepth: 1\n:hidden:\n"
        ++ strJoin (tags.map (fun tag => "\n" ++ ("tags/" ++ toKebabCase (tag.name ++ ".md"))))
        ++ "\n```\n\n" := by
  unfold renderMarkdownToctree
  rw [foldl_toctree_eq tags "", String.empty_append]

theorem strContains_span (a href b : String) :
    strContains ((a ++ "href=\"") ++ href ++ ("\"" ++ b)) ("href=\"" ++ href ++ "\"") := by
  have h : (a ++ "href=\"") ++ href ++ ("\"" ++ b) = a ++ ("href=\"" ++ href ++ "\"") ++ b := by
    simp [String.append_assoc]
  rw [h]
  exact strContains_middle _ _ _

theorem softwareFragment_contains_tag_href (sw : Software) (tU pU lU t : String) (ht : t ∈ sw.tags) :
    strContains (softwareFragment sw tU pU lU)
      ("href=\"" ++ (tU ++ pyQuote (toKebabCase t) ++ ".html") ++ "\"") := by
  unfold softwareFragment softwareTemplateRender
  apply strContains_appendR
  apply strContains_appendL
  have hmem : ("<span class=\"tag\"><a href=\"" ++ (tU ++ pyQuote (toKebabCase t) ++ ".html") ++ "\">\x7bocticon\x7d`tag;0.8em;octicon` " ++ t ++ "</a> </span>\n")
      ∈ (sw.tags.map (fun tag => (tag, tU ++ pyQuote (toKebabCase tag) ++ ".html"))).map
          (fun p => "<span class=\"tag\"><a href=\"" ++ p.2 ++ "\">\x7bocticon\x7d`tag;0.8em;octicon` " ++ p.1 ++ "</a> </span>\n") := by
    rw [List.map_map]
    exact List.mem_map_of_mem _ ht
  refine strContains_strJoin hmem ?_
  apply strContains_appendR
  apply strContains_appendR
  exact strContains_span "<span class=\"tag\"><a " (tU ++ pyQuote (toKebabCase t) ++ ".html") ">\x7bocticon\x7d`tag;0.8em;octicon` "

theorem softwareFragment_contains_platform_href (sw : Software) (ps : List String) (hps : sw.platforms = some ps) (tU pU lU p : String) (hp : p ∈ ps) :
    strContains (softwareFragment sw tU pU lU)
      ("href=\"" ++ (pU ++ pyQuote (toKebabCase p) ++ ".html") ++ "\"") := by
  unfold softwareFragment softwareTemplateRender
  rw [hps]
  apply strContains_appendR
  apply strContains_appendR
  apply strContains_appendR
  apply strContains_appendR
  apply strContains_appendR
  apply strContains_appendR
  apply strContains_appendR
  apply strContains_appendL
  have hmem : ("<span class=\"platform\"><a href=\"" ++ (pU ++ pyQuote (toKebabCase p) ++ ".html") ++ "\">\x7bocticon\x7d`package;0.8em;octicon` " ++ p ++ "</a> </span> ")
      ∈ (ps.map (fun q => (q, pU ++ pyQuote (toKebabCase q) ++ ".html"))).map
          (fun q => "<span class=\"platform\"><a href=\"" ++ q.2 ++ "\">\x7bocticon\x7d`package;0.8em;octicon` " ++ q.1 ++ "</a> </span> ") := by
    rw [List.map_map]
    exact List.mem_map_of_mem _ hp
  refine strContains_strJoin hmem ?_
  apply strContains_appendR
  apply strContains_appendR
  exact strContains_span "<span class=\"platform\"><a " (pU ++ pyQuote (toKebabCase p) ++ ".html") ">\x7bocticon\x7d`package;0.8em;octicon` "

theorem tagHeaderRender_contains_related (item : Item) (rts : List String) (hrt : item.related_tags = some rts) (rt : String) (h : rt ∈ rts) :
    strContains (tagHeaderRender item) ("](" ++ toKebabCase rt ++ ".md)") := by
  unfold tagHeaderRender
  rw [hrt]
  apply strContains_appendR
  apply strContains_appendR
  apply strContains_appendR
  apply strContains_appendR
  apply strContains_appendR
  apply strContains_appendL
  apply strContains_appendR
  apply strContains_appendL
  have hmem : ("- [" ++ rt ++ "](" ++ toKebabCase rt ++ ".md)\n")
      ∈ rts.map (fun r => "- [" ++ r ++ "](" ++ toKebabCase r ++ ".md)\n") :=
    List.mem_map_of_mem _ h
  refine strContains_strJoin hmem ?_
  have hsplit : ("- [" ++ rt ++ "](" ++ toKebabCase rt ++ ".md)\n")
      = ("- [" ++ rt) ++ ("](" ++ toKebabCase rt ++ ".md)") ++ "\n" := by
    rw [show (".md)\n" : String) = ".md)" ++ "\n" from rfl]
    simp [String.append_assoc]
  rw [hsplit]
  exact strContains_middle _ _ _

theorem tagPageContents_contains (excl : List String) (item : Item) (softwareList : List Software) (sw : Software) (pat : String)
    (hsw : sw ∈ tagPageIncluded excl item.name softwareList)
    (h : strContains (softwareFragment sw "./" "../platforms/" "../index.html#list-of-licenses") pat) :
    strContains (tagPageContents excl item softwareList) pat := by
  unfold tagPageContents
  have hne : strJoin ((tagPageIncluded excl item.name softwareList).map
      (fun sw => softwareFragment sw "./" "../platforms/" "../index.html#list-of-licenses")) ≠ "" := by
    rw [Ne, strJoin_fragments_eq_empty_iff]
    intro h0
    rw [h0] at hsw
    cases hsw
  rw [if_pos hne]
  apply strContains_appendL
  exact strContains_strJoin (List.mem_map_of_mem _ hsw) h

theorem platformPageContents_contains (excl : List String) (item : Item) (softwareList : List Software) (sw : Software) (pat : String)
    (hsw : sw ∈ platformPageIncluded excl item.name softwareList)
    (h : strContains (softwareFragment sw "../tags/" "./" "../index.html#list-of-licenses") pat) :
    strContains (platformPageContents excl item softwareList) pat := by
  unfold platformPageContents
  have hne : strJoin ((platformPageIncluded excl item.name softwareList).map
      (fun sw => softwareFragment sw "../tags/" "./" "../index.html#list-of-licenses")) ≠ "" := by
    rw [Ne, strJoin_fragments_eq_empty_iff]
    intro h0
    rw [h0] at hsw
    cases hsw
  rw [if_pos hne]
  apply strContains_appendL
  exact strContains_strJoin (List.mem_map_of_mem _ hsw) h

theorem itemSoftwareListAux_now (excl : List String) (matchKey itemName tU pU : String) (now₁ now₂ : Int) (l : List Software) :
    ∀ acc : String, itemSoftwareListAux excl matchKey itemName tU pU now₁ acc l
      = itemSoftwareListAux excl matchKey itemName tU pU now₂ acc l := by
  induction l with
  | nil => intro acc; rfl
  | cons sw rest ih =>
    intro acc
    unfold itemSoftwareListAux
    by_cases hex : isExcluded excl sw = true
    · rw [if_pos hex, if_pos hex]
      exact ih acc
    · rw [if_neg hex, if_neg hex]
      by_cases hm : matchesItem sw matchKey itemName = true
      · rw [if_pos hm, if_pos hm, renderMarkdownSoftware_now sw tU pU "../index.html#list-of-licenses" now₁ now₂]
        cases renderMarkdownSoftware sw tU pU "../index.html#list-of-licenses" now₂ with
        | error e => rfl
        | ok frag => exact ih (acc ++ frag)
      · rw [if_neg hm, if_neg hm]
        exact ih acc

theorem indexSoftwareListAux_now (excl : List String) (now₁ now₂ : Int) (l : List Software) :
    ∀ acc : String, indexSoftwareListAux excl now₁ acc l = indexSoftwareListAux excl now₂ acc l := by
  induction l with
  | nil => intro acc; rfl
  | cons sw rest ih =>
    intro acc
    unfold indexSoftwareListAux
    by_cases hex : isExcluded excl sw = true
    · rw [if_pos hex, if_pos hex]
      exact ih acc
    · rw [if_neg hex, if_neg hex, renderMarkdownSoftware_now sw "tags/" "platforms/" "#list-of-licenses" now₁ now₂]
      cases renderMarkdownSoftware sw "tags/" "platforms/" "#list-of-licenses" now₂ with
      | error e => rfl
      | ok frag => exact ih (acc ++ frag)

theorem itemSoftwareListLoop_now (exclOpt : Option (List String)) (matchKey itemName tU pU : String) (now₁ now₂ : Int) (acc : String) (l : List Software) :
    itemSoftwareListLoop exclOpt matchKey itemName tU pU now₁ acc l
      = itemSoftwareListLoop exclOpt matchKey itemName tU pU now₂ acc l := by
  cases l with
  | nil => rfl
  | cons a rest =>
    cases exclOpt with
    | none => rfl
    | some excl =>
      show itemSoftwareListAux excl matchKey itemName tU pU now₁ acc (a :: rest) = _
      rw [itemSoftwareListAux_now excl matchKey itemName tU pU now₁ now₂ (a :: rest) acc]
      rfl

theorem renderItemPage_now (step : Step) (itemType : String) (item : Item) (softwareList : List Software) (now₁ now₂ : Int) :
    renderItemPage step itemType item softwareList now₁ = renderItemPage step itemType item softwareList now₂ := by
  unfold renderItemPage
  by_cases ht : itemType = "tag"
  · rw [if_pos ht, if_pos ht]
    unfold renderItemPageWith
    rw [itemSoftwareListLoop_now step.exclude_licenses "tags" item.name "./" "../platforms/" now₁ now₂ "" softwareList]
  · rw [if_neg ht, if_neg ht]
    by_cases hp : itemType = "platform"
    · rw [if_pos hp, if_pos hp]
      unfold renderItemPageWith
      rw [itemSoftwareListLoop_now step.exclude_licenses "platforms" item.name "../tags/" "./" now₁ now₂ "" softwareList]
    · rw [if_neg hp, if_neg hp]

theorem renderItemPages_now (step : Step) (itemType : String) (items : List Item) (softwareList : List Software) (now₁ now₂ : Int) :
    renderItemPages step itemType items softwareList now₁ = renderItemPages step itemType items softwareList now₂ := by
  induction items with
  | nil => rfl
  | cons item rest ih =>
    unfold renderItemPages
    rw [renderItemPage_now step itemType item softwareList now₁ now₂, ih]

theorem renderMarkdownMultipage_fst_head (L : Type) (step : Step) (tags platforms : List Item) (softwareList : List Software) (licenses : L) (renderLicensesExt : Step → L → String) (markdownHeader markdownFooter : String) (now : Int) :
    (renderMarkdownMultipage step tags platforms softwareList licenses renderLicensesExt markdownHeader markdownFooter now).1.head?
      = match indexSoftwareListAux (step.exclude_licenses.getD []) now "" softwareList with
        | .error _ => none
        | .ok m => some (step.output_directory ++ "/md/" ++ step.output_file.getD "index.md",
            ":tocdepth: 2\n" ++ markdownHeader ++ MARKDOWN_INDEX_CONTENT_HEADER
            ++ renderMarkdownToctree tags ++ m
            ++ renderLicensesExt { step with exclude_licenses := some (step.exclude_licenses.getD []),
                                             output_file := some (step.output_file.getD "index.md") } licenses
            ++ markdownFooter) := by
  simp only [renderMarkdownMultipage]
  cases hI : indexSoftwareListAux (step.exclude_licenses.getD []) now "" softwareList with
  | error e => simp
  | ok m =>
    rcases hT : renderItemPages { step with exclude_licenses := some (step.exclude_licenses.getD []), output_file := some (step.output_file.getD "index.md") } "tag" tags softwareList now with ⟨ws, e⟩
    cases e with
    | some err => simp
    | none =>
      rcases hP : renderItemPages { step with exclude_licenses := some (step.exclude_licenses.getD []), output_file := some (step.output_file.getD "index.md") } "platform" platforms softwareList now with ⟨ws2, e2⟩
      cases e2 with
      | some err => simp
      | none => simp

theorem renderMarkdownMultipage_now (L : Type) (step : Step) (tags platforms : List Item) (softwareList : List Software) (licenses : L) (renderLicensesExt : Step → L → String) (markdownHeader markdownFooter : String) (now₁ now₂ : Int) :
    renderMarkdownMultipage step tags platforms softwareList licenses renderLicensesExt markdownHeader markdownFooter now₁
      = renderMarkdownMultipage step tags platforms softwareList licenses renderLicensesExt markdownHeader markdownFooter now₂ := by
  simp only [renderMarkdownMultipage]
  rw [indexSoftwareListAux_now (step.exclude_licenses.getD []) now₁ now₂ softwareList ""]
  cases hI : indexSoftwareListAux (step.exclude_licenses.getD []) now₂ "" softwareList with
  | error e => rfl
  | ok m =>
    rw [renderItemPages_now { step with exclude_licenses := some (step.exclude_licenses.getD []), output_file := some (step.output_file.getD "index.md") } "tag" tags softwareList now₁ now₂]
    rcases hT : renderItemPages { step with exclude_licenses := some (step.exclude_licenses.getD []), output_file := some (step.output_file.getD "index.md") } "tag" tags softwareList now₂ with ⟨ws, e⟩
    cases e with
    | some err => rfl
    | none =>
      rw [renderItemPages_now { step with exclude_licenses := some (step.exclude_licenses.getD []), output_file := some (step.output_file.getD "index.md") } "platform" platforms softwareList now₁ now₂]

theorem renderMarkdownSoftware_ok_inv (sw : Software) (tU pU lU : String) (now : Int) (frag : String)
    (h : renderMarkdownSoftware sw tU pU lU now = .ok frag) :
    frag = softwareFragment sw tU pU lU := by
  unfold renderMarkdownSoftware dateCssClass at h
  unfold softwareFragment
  cases hu : sw.updated_at with
  | none =>
    simp only [hu] at h
    exact (Except.ok.inj h).symm
  | some s =>
    simp only [hu] at h
    cases hp : strptimeYmd s with
    | none =>
      simp only [hp] at h
      exact Except.noConfusion h
    | some t =>
      simp only [hp] at h
      exact (Except.ok.inj h).symm

theorem tagPageContents_cases (excl : List String) (item : Item) (softwareList : List Software) :
    tagPageContents excl item softwareList
      = if tagPageIncluded excl item.name softwareList = [] then tagHeaderRender item
        else tagHeaderRender item ++ MARKDOWN_TAGPAGE_CONTENT_HEADER
          ++ strJoin ((tagPageIncluded excl item.name softwareList).map
              (fun sw => softwareFragment sw "./" "../platforms/" "../index.html#list-of-licenses")) := by
  unfold tagPageContents
  by_cases hinc : tagPageIncluded excl item.name softwareList = []
  · rw [if_pos hinc, hinc]
    simp [strJoin]
  · rw [if_neg hinc,
      if_pos ((not_congr (strJoin_fragments_eq_empty_iff _ _ _ _)).mpr hinc)]

theorem platformPageContents_cases (excl : List String) (item : Item) (softwareList : List Software) :
    platformPageContents excl item softwareList
      = if platformPageIncluded excl item.name softwareList = [] then platformHeaderRender item
        else ":orphan:\n:nosearch:\n" ++ platformHeaderRender item ++ MARKDOWN_PLATFORMPAGE_CONTENT_HEADER
          ++ strJoin ((platformPageIncluded excl item.name softwareList).map
              (fun sw => softwareFragment sw "../tags/" "./" "../index.html#list-of-licenses")) := by
  unfold platformPageContents
  by_cases hinc : platformPageIncluded excl item.name softwareList = []
  · rw [if_pos hinc, hinc]
    simp [strJoin]
  · rw [if_neg hinc,
      if_pos ((not_congr (strJoin_fragments_eq_empty_iff _ _ _ _)).mpr hinc)]

theorem renderMarkdownMultipage_css (L : Type) (step : Step) (tags platforms : List Item) (softwareList : List Software) (licenses : L) (renderLicensesExt : Step → L → String) (markdownHeader markdownFooter : String) (now : Int)
    (hok : (renderMarkdownMultipage step tags platforms softwareList licenses renderLicensesExt markdownHeader markdownFooter now).2 = none) :
    (renderMarkdownMultipage step tags platforms softwareList licenses renderLicensesExt markdownHeader markdownFooter now).1.getLast?
      = some (step.source_directory ++ "/html/_static/custom.css", MARKDOWN_CSS) := by
  simp only [renderMarkdownMultipage] at hok ⊢
  cases hI : indexSoftwareListAux (step.exclude_licenses.getD []) now "" softwareList with
  | error e => rw [hI] at hok; simp at hok
  | ok m =>
    rw [hI] at hok
    rcases hT : renderItemPages { step with exclude_licenses := some (step.exclude_licenses.getD []), output_file := some (step.output_file.getD "index.md") } "tag" tags softwareList now with ⟨ws, e⟩
    rw [hT] at hok
    cases e with
    | some err => simp at hok
    | none =>
      rcases hP : renderItemPages { step with exclude_licenses := some (step.exclude_licenses.getD []), output_file := some (step.output_file.getD "index.md") } "platform" platforms softwareList now with ⟨ws2, e2⟩
      rw [hP] at hok
      cases e2 with
      | some err => simp at hok
      | none =>
        simp only [← List.cons_append, List.getLast?_concat]

/-! ## Claim theorems -/

/-- C1: the claim says the fragment returned by the record renderer carries
an age badge (alert when `updated_at` is older than 365 days, warning when
older than 186, default otherwise).  The code computes exactly that
classification in `date_css_class`, but the software template never
references the variable, so the rendered fragment contains no age badge at
all: on a project last updated 2020-01-01, rendered at two "now" instants
for which the classification is `redbox` resp. `updated-at`, the fragment
is the same string and contains neither class name. -/
theorem c1_age_badge_never_rendered :
    dateCssClass swFoo.updated_at (86400000000 * 19875) = some "redbox"
    ∧ dateCssClass swFoo.updated_at (86400000000 * 18263) = some "updated-at"
    ∧ renderMarkdownSoftware swFoo "tags/" "platforms/" "#list-of-licenses" (86400000000 * 19875)
        = .ok (softwareFragment swFoo "tags/" "platforms/" "#list-of-licenses")
    ∧ renderMarkdownSoftware swFoo "tags/" "platforms/" "#list-of-licenses" (86400000000 * 19875)
        = renderMarkdownSoftware swFoo "tags/" "platforms/" "#list-of-licenses" (86400000000 * 18263)
    ∧ ¬ strContains (softwareFragment swFoo "tags/" "platforms/" "#list-of-licenses") "redbox"
    ∧ ¬ strContains (softwareFragment swFoo "tags/" "platforms/" "#list-of-licenses") "updated-at" :=
  ⟨by decide, by decide, by decide,
   renderMarkdownSoftware_now swFoo "tags/" "platforms/" "#list-of-licenses" _ _,
   by decide, by decide⟩

/-- C2: the claim says the stylesheet is written under the configured
output directory.  On a run with `source_directory = "data"` and
`output_directory = "out"`, the pipeline writes `custom.css` to
`data/html/_static/custom.css`: a path under the source directory, of
which the output directory is not even a prefix. -/
theorem c2_css_written_under_source_directory :
    ((renderMarkdownMultipage { source_directory := "data", output_directory := "out" } [] [] [] () (fun _ _ => "") "" "" 0).1.map Prod.fst)
      = ["out/md/index.md", "data/html/_static/custom.css"]
    ∧ (renderMarkdownMultipage { source_directory := "data", output_directory := "out" } [] [] [] () (fun _ _ => "") "" "" 0).1.getLast?
      = some ("data" ++ "/html/_static/custom.css", MARKDOWN_CSS)
    ∧ ¬ ("out".data <+: ("data" ++ "/html/_static/custom.css").data) :=
  ⟨by decide,
   renderMarkdownMultipage_css Unit { source_directory := "data", output_directory := "out" } [] [] [] () (fun _ _ => "") "" "" 0 (by decide),
   by decide⟩

/-- C7: the whole pipeline is a pure function of its loaded inputs and
does not depend on the wall clock: `render_markdown_software` and
`render_markdown_multipage` produce identical results at any two values of
`datetime.now()` (the computed `date_css_class` is never referenced by the
template), so two runs on identical input produce byte-identical writes. -/
theorem c7_output_independent_of_wall_clock :
    (∀ (sw : Software) (tU pU lU : String) (now₁ now₂ : Int),
      renderMarkdownSoftware sw tU pU lU now₁ = renderMarkdownSoftware sw tU pU lU now₂)
    ∧ (∀ (L : Type) (step : Step) (tags platforms : List Item) (softwareList : List Software) (licenses : L) (renderLicensesExt : Step → L → String) (markdownHeader markdownFooter : String) (now₁ now₂ : Int),
      renderMarkdownMultipage step tags platforms softwareList licenses renderLicensesExt markdownHeader markdownFooter now₁
        = renderMarkdownMultipage step tags platforms softwareList licenses renderLicensesExt markdownHeader markdownFooter now₂) :=
  ⟨renderMarkdownSoftware_now, renderMarkdownMultipage_now⟩

/-- C8: invoking the collection page renderer with an item kind other than
`tag` or `platform` terminates the run fatally (`sys.exit(1)`, modelled by
`RunError.invalidItemType`), producing no page write. -/
theorem c8_invalid_item_type_fatal (step : Step) (itemType : String) (item : Item) (softwareList : List Software) (now : Int)
    (ht : itemType ≠ "tag") (hp : itemType ≠ "platform") :
    renderItemPage step itemType item softwareList now = .error RunError.invalidItemType := by
  unfold renderItemPage
  rw [if_neg ht, if_neg hp]

/-- Witness for C8 at the concrete kind `"category"`. -/
theorem c8_invalid_item_type_fatal_witness :
    ("category" ≠ "tag" ∧ "category" ≠ "platform")
    ∧ renderItemPage stepEx "category" itemWikis [] 0 = .error RunError.invalidItemType :=
  ⟨⟨by decide, by decide⟩,
   c8_invalid_item_type_fatal stepEx "category" itemWikis [] 0 (by decide) (by decide)⟩

/-- C9: the toctree block is the fixed prelude followed by one entry per
category (its page path `tags/<slug>.md`), in the order of the category
list, and a fixed close; it is built from the categories alone, so the
index write is unchanged under any change of the platform list. -/
theorem c9_toctree_one_entry_per_category :
    (∀ tags : List Item,
      renderMarkdownToctree tags
        = "\n```\x7btoctree\x7d\n:maxdepth: 1\n:hidden:\n"
          ++ strJoin (tags.map (fun tag => "\n" ++ ("tags/" ++ toKebabCase (tag.name ++ ".md"))))
          ++ "\n```\n\n")
    ∧ (∀ (L : Type) (step : Step) (tags platforms₁ platforms₂ : List Item) (softwareList : List Software) (licenses : L) (renderLicensesExt : Step → L → String) (markdownHeader markdownFooter : String) (now : Int),
      (renderMarkdownMultipage step tags platforms₁ softwareList licenses renderLicensesExt markdownHeader markdownFooter now).1.head?
        = (renderMarkdownMultipage step tags platforms₂ softwareList licenses renderLicensesExt markdownHeader markdownFooter now).1.head?) := by
  refine ⟨renderMarkdownToctree_eq, ?_⟩
  intro L step tags platforms₁ platforms₂ softwareList licenses renderLicensesExt markdownHeader markdownFooter now
  rw [renderMarkdownMultipage_fst_head, renderMarkdownMultipage_fst_head]

/-- C3 counterexample: omission from a label page is not equivalent to
license exclusion.  The project `Foo` (license `MIT`, tag `Wikis`) passes
the exclusion test with `exclude_licenses = []`, yet it is omitted from
the page of the tag `Games` (the page consists of the bare header and does
not mention `Foo`), because it does not reference that tag. -/
theorem c3_omitted_without_license_match :
    isExcluded [] swFoo = false
    ∧ renderItemPage stepEx "tag" itemGames [swFoo] 0
        = .ok ("out/md/tags/games.md", tagHeaderRender itemGames)
    ∧ ¬ strContains (tagHeaderRender itemGames) swFoo.name :=
  ⟨by decide, by decide, by decide⟩

/-- C3 (amended): the exclusion test — identical between the index loop
and the label page loop — is exact string membership: a project is
license-excluded iff some entry of `exclude_licenses` is a member of its
license list; both loops skip a project exactly when that test holds; and
a project survives onto the index iff not excluded, onto a label page iff
not excluded and referencing the label by exact name. -/
theorem c3_exclusion_exact_match :
    (∀ (excl : List String) (sw : Software),
      isExcluded excl sw = true ↔ ∃ license ∈ excl, license ∈ sw.licenses)
    ∧ (∀ (excl : List String) (matchKey itemName tU pU : String) (now : Int) (acc : String) (sw : Software) (rest : List Software),
      isExcluded excl sw = true →
        itemSoftwareListAux excl matchKey itemName tU pU now acc (sw :: rest)
          = itemSoftwareListAux excl matchKey itemName tU pU now acc rest)
    ∧ (∀ (excl : List String) (now : Int) (acc : String) (sw : Software) (rest : List Software),
      isExcluded excl sw = true →
        indexSoftwareListAux excl now acc (sw :: rest) = indexSoftwareListAux excl now acc rest)
    ∧ (∀ (excl : List String) (softwareList : List Software) (sw : Software),
      sw ∈ indexIncluded excl softwareList ↔ sw ∈ softwareList ∧ isExcluded excl sw = false)
    ∧ (∀ (excl : List String) (itemName : String) (softwareList : List Software) (sw : Software),
      sw ∈ tagPageIncluded excl itemName softwareList
        ↔ sw ∈ softwareList ∧ isExcluded excl sw = false ∧ matchesItem sw "tags" itemName = true)
    ∧ (∀ (excl : List String) (itemName : String) (softwareList : List Software) (sw : Software),
      sw ∈ platformPageIncluded excl itemName softwareList
        ↔ sw ∈ softwareList ∧ isExcluded excl sw = false ∧ matchesItem sw "platforms" itemName = true) := by
  refine ⟨?_, ?_, ?_, ?_, ?_, ?_⟩
  · intro excl sw
    simp [isExcluded, List.any_eq_true, List.elem_iff]
  · intro excl matchKey itemName tU pU now acc sw rest h
    conv_lhs => rw [itemSoftwareListAux]
    rw [if_pos h]
  · intro excl now acc sw rest h
    conv_lhs => rw [indexSoftwareListAux]
    rw [if_pos h]
  · intro excl softwareList sw
    simp [indexIncluded, List.mem_filter, Bool.not_eq_true']
  · intro excl itemName softwareList sw
    simp [tagPageIncluded, List.mem_filter, Bool.and_eq_true, Bool.not_eq_true', and_assoc]
  · intro excl itemName softwareList sw
    simp [platformPageIncluded, List.mem_filter, Bool.and_eq_true, Bool.not_eq_true', and_assoc]

/-- Witness for C3 (amended), at the spec example: a project with licenses
`["MIT", "Proprietary"]` is excluded under `exclude_licenses =
["Proprietary"]` (both loops skip it, and it is in no included list), and
included under `["GPL-3.0"]`. -/
theorem c3_exclusion_exact_match_witness :
    (isExcluded ["Proprietary"] swBaz = true ∧ (∃ license ∈ ["Proprietary"], license ∈ swBaz.licenses))
    ∧ itemSoftwareListAux ["Proprietary"] "tags" "Wikis" "./" "../platforms/" 0 "" [swBaz]
        = itemSoftwareListAux ["Proprietary"] "tags" "Wikis" "./" "../platforms/" 0 "" []
    ∧ indexSoftwareListAux ["Proprietary"] 0 "" [swBaz] = indexSoftwareListAux ["Proprietary"] 0 "" []
    ∧ (swBaz ∈ indexIncluded ["GPL-3.0"] [swBaz] ↔ swBaz ∈ [swBaz] ∧ isExcluded ["GPL-3.0"] swBaz = false)
    ∧ (swBaz ∈ tagPageIncluded ["GPL-3.0"] "Wikis" [swBaz]
        ↔ swBaz ∈ [swBaz] ∧ isExcluded ["GPL-3.0"] swBaz = false ∧ matchesItem swBaz "tags" "Wikis" = true) :=
  ⟨⟨by decide, (c3_exclusion_exact_match.1 ["Proprietary"] swBaz).mp (by decide)⟩,
   c3_exclusion_exact_match.2.1 ["Proprietary"] "tags" "Wikis" "./" "../platforms/" 0 "" swBaz [] (by decide),
   c3_exclusion_exact_match.2.2.1 ["Proprietary"] 0 "" swBaz [] (by decide),
   c3_exclusion_exact_match.2.2.2.1 ["GPL-3.0"] [swBaz] swBaz,
   c3_exclusion_exact_match.2.2.2.2.1 ["GPL-3.0"] "Wikis" [swBaz] swBaz⟩

/-- C4 counterexample: on a platform page with one matching project, the
written file is not the header block followed by the content-section
header and the fragments — it carries the fieldlist prefix
`:orphan:\n:nosearch:\n` first.  The page rendered with no matching
project (which the claim takes as the header block) differs from the
populated page with the content header and fragment stripped. -/
theorem c4_platform_page_fieldlist_prefix :
    renderItemPage stepEx "platform" itemPython [] 0
      = .ok ("out/md/platforms/python.md", platformHeaderRender itemPython)
    ∧ renderItemPage stepEx "platform" itemPython [swBar] 0
      = .ok ("out/md/platforms/python.md",
          ":orphan:\n:nosearch:\n" ++ platformHeaderRender itemPython ++ MARKDOWN_PLATFORMPAGE_CONTENT_HEADER
          ++ softwareFragment swBar "../tags/" "./" "../index.html#list-of-licenses")
    ∧ (":orphan:\n:nosearch:\n" ++ platformHeaderRender itemPython ++ MARKDOWN_PLATFORMPAGE_CONTENT_HEADER
        ++ softwareFragment swBar "../tags/" "./" "../index.html#list-of-licenses")
      ≠ platformHeaderRender itemPython ++ MARKDOWN_PLATFORMPAGE_CONTENT_HEADER
        ++ softwareFragment swBar "../tags/" "./" "../index.html#list-of-licenses" :=
  ⟨by decide, by decide, by decide⟩

/-- C4 (amended): for either label kind the renderer always produces
exactly one `(path, contents)` write and never an error (given parseable
dates): when at least one project survives the filters the contents are
the fieldlist (empty for tag pages, `:orphan:\n:nosearch:\n` for platform
pages), the label header block, the content-section header and the
surviving fragments in input-list order; when none survives, the contents
are the bare header block (without the fieldlist). -/
theorem c4_one_file_per_label (step : Step) (excl : List String) (item : Item) (softwareList : List Software) (now : Int)
    (hexcl : step.exclude_licenses = some excl) (h : ∀ sw ∈ softwareList, datesOk sw = true) :
    renderItemPage step "tag" item softwareList now
      = .ok (step.output_directory ++ "/md/tags/" ++ toKebabCase (item.name ++ ".md"),
          if tagPageIncluded excl item.name softwareList = [] then tagHeaderRender item
          else tagHeaderRender item ++ MARKDOWN_TAGPAGE_CONTENT_HEADER
            ++ strJoin ((tagPageIncluded excl item.name softwareList).map
                (fun sw => softwareFragment sw "./" "../platforms/" "../index.html#list-of-licenses")))
    ∧ renderItemPage step "platform" item softwareList now
      = .ok (step.output_directory ++ "/md/platforms/" ++ toKebabCase (item.name ++ ".md"),
          if platformPageIncluded excl item.name softwareList = [] then platformHeaderRender item
          else ":orphan:\n:nosearch:\n" ++ platformHeaderRender item ++ MARKDOWN_PLATFORMPAGE_CONTENT_HEADER
            ++ strJoin ((platformPageIncluded excl item.name softwareList).map
                (fun sw => softwareFragment sw "../tags/" "./" "../index.html#list-of-licenses"))) := by
  constructor
  · rw [renderItemPage_tag_eq step excl item softwareList now hexcl h, tagPageContents_cases]
  · rw [renderItemPage_platform_eq step excl item softwareList now hexcl h, platformPageContents_cases]

/-- Witness for C4 (amended): the tag `Wikis` with one matching project
and the platform `Python` with none. -/
theorem c4_one_file_per_label_witness :
    (stepEx.exclude_licenses = some [] ∧ (∀ sw ∈ [swFoo], datesOk sw = true))
    ∧ renderItemPage stepEx "tag" itemWikis [swFoo] 0
      = .ok (stepEx.output_directory ++ "/md/tags/" ++ toKebabCase (itemWikis.name ++ ".md"),
          if tagPageIncluded [] itemWikis.name [swFoo] = [] then tagHeaderRender itemWikis
          else tagHeaderRender itemWikis ++ MARKDOWN_TAGPAGE_CONTENT_HEADER
            ++ strJoin ((tagPageIncluded [] itemWikis.name [swFoo]).map
                (fun sw => softwareFragment sw "./" "../platforms/" "../index.html#list-of-licenses")))
    ∧ renderItemPage stepEx "platform" itemPython [swFoo] 0
      = .ok (stepEx.output_directory ++ "/md/platforms/" ++ toKebabCase (itemPython.name ++ ".md"),
          if platformPageIncluded [] itemPython.name [swFoo] = [] then platformHeaderRender itemPython
          else ":orphan:\n:nosearch:\n" ++ platformHeaderRender itemPython ++ MARKDOWN_PLATFORMPAGE_CONTENT_HEADER
            ++ strJoin ((platformPageIncluded [] itemPython.name [swFoo]).map
                (fun sw => softwareFragment sw "../tags/" "./" "../index.html#list-of-licenses"))) :=
  ⟨⟨rfl, by decide⟩,
   (c4_one_file_per_label stepEx [] itemWikis [swFoo] 0 rfl (by decide)).1,
   (c4_one_file_per_label stepEx [] itemPython [swFoo] 0 rfl (by decide)).2⟩

/-- C5: the root index file written first by the pipeline is exactly the
concatenation, in order, of the depth-limiting directive `:tocdepth: 2`,
the header text read from the external header file, the fixed Entries
intro, the toctree manifest, the fragment of every project surviving the
license exclusion (in input order, with links relative to the root:
`tags/`, `platforms/`, `#list-of-licenses`), the licenses block delegated
to the external renderer on the full unfiltered license list, and the
footer text. -/
theorem c5_index_concatenation (L : Type) (step : Step) (tags platforms : List Item) (softwareList : List Software) (licenses : L) (renderLicensesExt : Step → L → String) (markdownHeader markdownFooter : String) (now : Int)
    (h : ∀ sw ∈ softwareList, datesOk sw = true) :
    (renderMarkdownMultipage step tags platforms softwareList licenses renderLicensesExt markdownHeader markdownFooter now).1.head?
      = some (step.output_directory ++ "/md/" ++ step.output_file.getD "index.md",
          ":tocdepth: 2\n" ++ markdownHeader ++ MARKDOWN_INDEX_CONTENT_HEADER
          ++ renderMarkdownToctree tags
          ++ strJoin ((indexIncluded (step.exclude_licenses.getD []) softwareList).map
              (fun sw => softwareFragment sw "tags/" "platforms/" "#list-of-licenses"))
          ++ renderLicensesExt { step with exclude_licenses := some (step.exclude_licenses.getD []),
                                           output_file := some (step.output_file.getD "index.md") } licenses
          ++ markdownFooter) := by
  rw [renderMarkdownMultipage_fst_head,
    indexSoftwareListAux_ok (step.exclude_licenses.getD []) now softwareList "" h]
  rw [String.empty_append]

/-- Witness for C5 at a one-project, one-tag, one-platform run. -/
theorem c5_index_concatenation_witness :
    (∀ sw ∈ [swFoo], datesOk sw = true)
    ∧ (renderMarkdownMultipage stepEx [itemWikis] [itemPython] [swFoo] () (fun _ _ => "LIC") "HDR" "FTR" 0).1.head?
      = some (stepEx.output_directory ++ "/md/" ++ stepEx.output_file.getD "index.md",
          ":tocdepth: 2\n" ++ "HDR" ++ MARKDOWN_INDEX_CONTENT_HEADER
          ++ renderMarkdownToctree [itemWikis]
          ++ strJoin ((indexIncluded (stepEx.exclude_licenses.getD []) [swFoo]).map
              (fun sw => softwareFragment sw "tags/" "platforms/" "#list-of-licenses"))
          ++ (fun _ _ => "LIC") { stepEx with exclude_licenses := some (stepEx.exclude_licenses.getD []),
                                              output_file := some (stepEx.output_file.getD "index.md") } ()
          ++ "FTR") :=
  ⟨by decide,
   c5_index_concatenation Unit stepEx [itemWikis] [itemPython] [swFoo] () (fun _ _ => "LIC") "HDR" "FTR" 0 (by decide)⟩

/-- C6: relative link bases inside page fragments are asymmetric by kind.
On a tag page, every tag badge of a rendered project links via the base
`./` and every platform badge via `../platforms/`; on a platform page,
tag badges link via `../tags/` and platform badges via `./`. -/
theorem c6_relative_link_bases (step : Step) (excl : List String) (item : Item) (softwareList : List Software) (now : Int) (sw : Software)
    (hexcl : step.exclude_licenses = some excl) (h : ∀ s ∈ softwareList, datesOk s = true) :
    (∀ path contents, renderItemPage step "tag" item softwareList now = .ok (path, contents) →
      sw ∈ tagPageIncluded excl item.name softwareList →
        (∀ t ∈ sw.tags, strContains contents ("href=\"" ++ ("./" ++ pyQuote (toKebabCase t) ++ ".html") ++ "\""))
        ∧ (∀ ps, sw.platforms = some ps →
            ∀ p ∈ ps, strContains contents ("href=\"" ++ ("../platforms/" ++ pyQuote (toKebabCase p) ++ ".html") ++ "\"")))
    ∧ (∀ path contents, renderItemPage step "platform" item softwareList now = .ok (path, contents) →
      sw ∈ platformPageIncluded excl item.name softwareList →
        (∀ t ∈ sw.tags, strContains contents ("href=\"" ++ ("../tags/" ++ pyQuote (toKebabCase t) ++ ".html") ++ "\""))
        ∧ (∀ ps, sw.platforms = some ps →
            ∀ p ∈ ps, strContains contents ("href=\"" ++ ("./" ++ pyQuote (toKebabCase p) ++ ".html") ++ "\""))) := by
  constructor
  · intro path contents hpage hsw
    rw [renderItemPage_tag_eq step excl item softwareList now hexcl h] at hpage
    have hc : contents = tagPageContents excl item softwareList :=
      (congrArg Prod.snd (Except.ok.inj hpage)).symm
    subst hc
    constructor
    · intro t ht
      exact tagPageContents_contains excl item softwareList sw _ hsw
        (softwareFragment_contains_tag_href sw "./" "../platforms/" "../index.html#list-of-licenses" t ht)
    · intro ps hps p hp
      exact tagPageContents_contains excl item softwareList sw _ hsw
        (softwareFragment_contains_platform_href sw ps hps "./" "../platforms/" "../index.html#list-of-licenses" p hp)
  · intro path contents hpage hsw
    rw [renderItemPage_platform_eq step excl item softwareList now hexcl h] at hpage
    have hc : contents = platformPageContents excl item softwareList :=
      (congrArg Prod.snd (Except.ok.inj hpage)).symm
    subst hc
    constructor
    · intro t ht
      exact platformPageContents_contains excl item softwareList sw _ hsw
        (softwareFragment_contains_tag_href sw "../tags/" "./" "../index.html#list-of-licenses" t ht)
    · intro ps hps p hp
      exact platformPageContents_contains excl item softwareList sw _ hsw
        (softwareFragment_contains_platform_href sw ps hps "../tags/" "./" "../index.html#list-of-licenses" p hp)

/-- Witness for C6: the project `Bar` (tag `Wikis`, platform `Python`)
rendered on the tag page `Wikis` and on the platform page `Python`. -/
theorem c6_relative_link_bases_witness :
    (stepEx.exclude_licenses = some [] ∧ (∀ s ∈ [swBar], datesOk s = true)
      ∧ swBar ∈ tagPageIncluded [] itemWikis.name [swBar]
      ∧ swBar ∈ platformPageIncluded [] itemPython.name [swBar]
      ∧ "Wikis" ∈ swBar.tags ∧ swBar.platforms = some ["Python"] ∧ "Python" ∈ ["Python"])
    ∧ strContains (tagPageContents [] itemWikis [swBar])
        ("href=\"" ++ ("./" ++ pyQuote (toKebabCase "Wikis") ++ ".html") ++ "\"")
    ∧ strContains (tagPageContents [] itemWikis [swBar])
        ("href=\"" ++ ("../platforms/" ++ pyQuote (toKebabCase "Python") ++ ".html") ++ "\"")
    ∧ strContains (platformPageContents [] itemPython [swBar])
        ("href=\"" ++ ("../tags/" ++ pyQuote (toKebabCase "Wikis") ++ ".html") ++ "\"")
    ∧ strContains (platformPageContents [] itemPython [swBar])
        ("href=\"" ++ ("./" ++ pyQuote (toKebabCase "Python") ++ ".html") ++ "\"") :=
  ⟨⟨rfl, by decide, by decide, by decide, by decide, rfl, by decide⟩,
   ((c6_relative_link_bases stepEx [] itemWikis [swBar] 0 swBar rfl (by decide)).1 _ _
      (renderItemPage_tag_eq stepEx [] itemWikis [swBar] 0 rfl (by decide)) (by decide)).1 "Wikis" (by decide),
   (((c6_relative_link_bases stepEx [] itemWikis [swBar] 0 swBar rfl (by decide)).1 _ _
      (renderItemPage_tag_eq stepEx [] itemWikis [swBar] 0 rfl (by decide)) (by decide)).2 ["Python"] rfl) "Python" (by decide),
   ((c6_relative_link_bases stepEx [] itemPython [swBar] 0 swBar rfl (by decide)).2 _ _
      (renderItemPage_platform_eq stepEx [] itemPython [swBar] 0 rfl (by decide)) (by decide)).1 "Wikis" (by decide),
   (((c6_relative_link_bases stepEx [] itemPython [swBar] 0 swBar rfl (by decide)).2 _ _
      (renderItemPage_platform_eq stepEx [] itemPython [swBar] 0 rfl (by decide)) (by decide)).2 ["Python"] rfl) "Python" (by decide)⟩

/-- C10: link and file extensions.  Tag and platform badges inside a
rendered fragment link to the relative base followed by the
percent-encoded kebab-case slug of the label and the extension `.html`,
while the page files themselves, the toctree entries and the related-tag
links all use the slug with the extension `.md`. -/
theorem c10_html_links_md_files :
    (∀ (sw : Software) (tU pU lU : String) (now : Int) (frag : String),
      renderMarkdownSoftware sw tU pU lU now = .ok frag →
        (∀ t ∈ sw.tags, strContains frag ("href=\"" ++ (tU ++ pyQuote (toKebabCase t) ++ ".html") ++ "\""))
        ∧ (∀ ps, sw.platforms = some ps →
            ∀ p ∈ ps, strContains frag ("href=\"" ++ (pU ++ pyQuote (toKebabCase p) ++ ".html") ++ "\"")))
    ∧ (∀ (step : Step) (itemType : String) (item : Item) (softwareList : List Software) (now : Int) (path contents : String),
      (itemType = "tag" ∨ itemType = "platform") →
      renderItemPage step itemType item softwareList now = .ok (path, contents) →
        ∃ dir, path = dir ++ (toKebabCase item.name ++ ".md"))
    ∧ (∀ tags : List Item,
      renderMarkdownToctree tags
        = "\n```\x7btoctree\x7d\n:maxdepth: 1\n:hidden:\n"
          ++ strJoin (tags.map (fun tag => "\n" ++ ("tags/" ++ (toKebabCase tag.name ++ ".md"))))
          ++ "\n```\n\n")
    ∧ (∀ (item : Item) (rts : List String), item.related_tags = some rts →
        ∀ rt ∈ rts, strContains (tagHeaderRender item) ("](" ++ toKebabCase rt ++ ".md)")) := by
  refine ⟨?_, ?_, ?_, tagHeaderRender_contains_related⟩
  · intro sw tU pU lU now frag hfrag
    rw [renderMarkdownSoftware_ok_inv sw tU pU lU now frag hfrag]
    exact ⟨fun t ht => softwareFragment_contains_tag_href sw tU pU lU t ht,
           fun ps hps p hp => softwareFragment_contains_platform_href sw ps hps tU pU lU p hp⟩
  · intro step itemType item softwareList now path contents hkind hpage
    unfold renderItemPage at hpage
    rcases hkind with hkind | hkind
    · rw [if_pos hkind] at hpage
      unfold renderItemPageWith at hpage
      cases hl : itemSoftwareListLoop step.exclude_licenses "tags" item.name "./" "../platforms/" now "" softwareList with
      | error e => rw [hl] at hpage; exact Except.noConfusion hpage
      | ok m =>
        rw [hl] at hpage
        refine ⟨step.output_directory ++ "/md/tags/", ?_⟩
        have hpath : step.output_directory ++ "/md/tags/" ++ toKebabCase (item.name ++ ".md") = path :=
          congrArg Prod.fst (Except.ok.inj hpage)
        rw [← hpath, toKebabCase_md]
    · rw [if_pos hkind] at hpage
      by_cases ht : itemType = "tag"
      · rw [if_pos ht] at hpage
        unfold renderItemPageWith at hpage
        cases hl : itemSoftwareListLoop step.exclude_licenses "tags" item.name "./" "../platforms/" now "" softwareList with
        | error e => rw [hl] at hpage; exact Except.noConfusion hpage
        | ok m =>
          rw [hl] at hpage
          refine ⟨step.output_directory ++ "/md/tags/", ?_⟩
          have hpath : step.output_directory ++ "/md/tags/" ++ toKebabCase (item.name ++ ".md") = path :=
            congrArg Prod.fst (Except.ok.inj hpage)
          rw [← hpath, toKebabCase_md]
      · rw [if_neg ht] at hpage
        unfold renderItemPageWith at hpage
        cases hl : itemSoftwareListLoop step.exclude_licenses "platforms" item.name "../tags/" "./" now "" softwareList with
        | error e => rw [hl] at hpage; exact Except.noConfusion hpage
        | ok m =>
          rw [hl] at hpage
          refine ⟨step.output_directory ++ "/md/platforms/", ?_⟩
          have hpath : step.output_directory ++ "/md/platforms/" ++ toKebabCase (item.name ++ ".md") = path :=
            congrArg Prod.fst (Except.ok.inj hpage)
          rw [← hpath, toKebabCase_md]
  · intro tags
    rw [renderMarkdownToctree_eq tags]
    simp only [toKebabCase_md]

/-- Witness for C10: fragment hrefs end in `.html` for the project `Bar`,
the tag page path for `Wikis` ends in `.md`, and the related-tag link of
the tag `Games` uses `.md`. -/
theorem c10_html_links_md_files_witness :
    strContains (softwareFragment swBar "tags/" "platforms/" "#list-of-licenses")
        ("href=\"" ++ ("tags/" ++ pyQuote (toKebabCase "Wikis") ++ ".html") ++ "\"")
    ∧ strContains (softwareFragment swBar "tags/" "platforms/" "#list-of-licenses")
        ("href=\"" ++ ("platforms/" ++ pyQuote (toKebabCase "Python") ++ ".html") ++ "\"")
    ∧ (∃ dir, "out" ++ "/md/tags/" ++ toKebabCase ("Wikis" ++ ".md") = dir ++ (toKebabCase itemWikis.name ++ ".md"))
    ∧ strContains (tagHeaderRender itemGames) ("](" ++ toKebabCase "Wikis" ++ ".md)") := by
  refine ⟨?_, ?_, ?_, ?_⟩
  · exact ((c10_html_links_md_files.1 swBar "tags/" "platforms/" "#list-of-licenses" 0 _
      (renderMarkdownSoftware_ok swBar "tags/" "platforms/" "#list-of-licenses" 0 (by decide))).1 "Wikis" (by decide))
  · exact (((c10_html_links_md_files.1 swBar "tags/" "platforms/" "#list-of-licenses" 0 _
      (renderMarkdownSoftware_ok swBar "tags/" "platforms/" "#list-of-licenses" 0 (by decide))).2 ["Python"] rfl) "Python" (by decide))
  · exact (c10_html_links_md_files.2.1 stepEx "tag" itemWikis [] 0 _ _ (Or.inl rfl)
      (renderItemPage_tag_eq stepEx [] itemWikis [] 0 rfl (by decide)))
  · exact (c10_html_links_md_files.2.2.2 itemGames ["Wikis"] rfl "Wikis" (by decide))
